import Mathlib

/-!
Shallow embedding of the `decimal-wad` fixed-point arithmetic library.

The source stores `Rate` in a 128-bit unsigned integer and `Decimal` in a
192-bit unsigned integer (the `uint`-crate types `U128`/`U192`), both scaled
by `10^18`.  We model the raw stored integers as `Nat` together with the
checked arithmetic of those fixed widths: `checked_add`/`checked_mul` fail
(return `none`) when the mathematical result reaches the width bound,
`checked_sub` fails on underflow and `checked_div` fails exactly on a zero
divisor.  Fallible operations of the source (`Result<_, DecimalError>`)
become `Except DecimalError _`; an `unwrap` on a checked operation becomes
`Option` (`none` = panic).
-/

namespace DecimalWad

/-- `SCALE` from `common.rs`: number of fractional decimal digits. -/
def SCALE : Nat := 18

/-- `WAD` from `common.rs`: the whole-unit scaler `10^18`. -/
def WAD : Nat := 1000000000000000000

/-- `HALF_WAD` from `common.rs`. -/
def HALF_WAD : Nat := 500000000000000000

/-- `PERCENT_SCALER` from `common.rs`. -/
def PERCENT_SCALER : Nat := 10000000000000000

/-- `BPS_SCALER` from `common.rs`: `PERCENT_SCALER / 100`. -/
def BPS_SCALER : Nat := PERCENT_SCALER / 100

/-- Size bound of the `u64` native width. -/
def U64SIZE : Nat := 2 ^ 64

/-- Size bound of the `uint`-crate `U128` width. -/
def U128SIZE : Nat := 2 ^ 128

/-- Size bound of the `uint`-crate `U192` width. -/
def U192SIZE : Nat := 2 ^ 192

/-- `checked_add` of a fixed-width unsigned integer of size `size`:
`none` exactly when the sum does not fit. -/
def checkedAdd (size a b : Nat) : Option Nat :=
  if a + b < size then some (a + b) else none

/-- `checked_sub` of an unsigned integer: `none` exactly on underflow. -/
def checkedSub (a b : Nat) : Option Nat :=
  if b ≤ a then some (a - b) else none

/-- `checked_mul` of a fixed-width unsigned integer of size `size`:
`none` exactly when the product does not fit. -/
def checkedMul (size a b : Nat) : Option Nat :=
  if a * b < size then some (a * b) else none

/-- `checked_div` of an unsigned integer: `none` exactly on a zero divisor,
otherwise the floor quotient. -/
def checkedDiv (a b : Nat) : Option Nat :=
  if b = 0 then none else some (a / b)

/-- The single error kind of the library (`error.rs`, referenced from every
checked operation in `src`: the spec records exactly one variant). -/
inductive DecimalError : Type where
  | MathOverflow : DecimalError
deriving DecidableEq

instance {α : Type} [DecidableEq α] : DecidableEq (Except DecimalError α) :=
  fun a b =>
    match a, b with
    | Except.error DecimalError.MathOverflow, Except.error DecimalError.MathOverflow =>
      isTrue rfl
    | Except.ok x, Except.ok y =>
      if h : x = y then isTrue (by rw [h])
      else isFalse (by intro hc; cases hc; exact h rfl)
    | Except.error _, Except.ok _ => isFalse (by intro hc; cases hc)
    | Except.ok _, Except.error _ => isFalse (by intro hc; cases hc)

/-- Lift a checked operation into the library's error type: `None` becomes
`DecimalError::MathOverflow` (the `.ok_or(DecimalError::MathOverflow)` idiom). -/
def orOverflow (o : Option Nat) : Except DecimalError Nat :=
  match o with
  | some v => Except.ok v
  | none => Except.error DecimalError.MathOverflow

/-- `Rate` (`rate.rs`): fixed-point value stored in a `U128`, scaled by `10^18`.
`raw` is the stored integer; a value originating from Rust satisfies
`raw < U128SIZE`. -/
structure Rate : Type where
  raw : Nat
deriving DecidableEq

/-- `Decimal` (`decimal.rs`): fixed-point value stored in a `U192`, scaled by
`10^18`.  A value originating from Rust satisfies `raw < U192SIZE`. -/
structure Decimal : Type where
  raw : Nat
deriving DecidableEq

/-- `Rate::one()`. -/
def Rate.one : Rate := ⟨WAD⟩

/-- `Rate::zero()`. -/
def Rate.zero : Rate := ⟨0⟩

/-- `Decimal::one()`. -/
def Decimal.one : Decimal := ⟨WAD⟩

/-- `Decimal::zero()`. -/
def Decimal.zero : Decimal := ⟨0⟩

/-- `TryAdd for Rate`: `self.0.checked_add(rhs.0).ok_or(MathOverflow)`. -/
def Rate.try_add (x y : Rate) : Except DecimalError Rate :=
  (orOverflow (checkedAdd U128SIZE x.raw y.raw)).map Rate.mk

/-- `TrySub for Rate`: `self.0.checked_sub(rhs.0).ok_or(MathOverflow)`. -/
def Rate.try_sub (x y : Rate) : Except DecimalError Rate :=
  (orOverflow (checkedSub x.raw y.raw)).map Rate.mk

/-- `TryMul<T> for Rate` (integer right operand, no rescaling):
`self.0.checked_mul(rhs.into()).ok_or(MathOverflow)`. -/
def Rate.try_mul_int (x : Rate) (n : Nat) : Except DecimalError Rate :=
  (orOverflow (checkedMul U128SIZE x.raw n)).map Rate.mk

/-- `TryMul<Rate> for Rate`: `self.0.checked_mul(rhs.0)?.checked_div(wad)?`. -/
def Rate.try_mul (x y : Rate) : Except DecimalError Rate := do
  let p ← orOverflow (checkedMul U128SIZE x.raw y.raw)
  let q ← orOverflow (checkedDiv p WAD)
  return ⟨q⟩

/-- `TryDiv<T> for Rate` (integer right operand, no rescaling):
`self.0.checked_div(rhs.into()).ok_or(MathOverflow)`. -/
def Rate.try_div_int (x : Rate) (n : Nat) : Except DecimalError Rate :=
  (orOverflow (checkedDiv x.raw n)).map Rate.mk

/-- `TryDiv<Rate> for Rate`: `self.0.checked_mul(wad)?.checked_div(rhs.0)?`. -/
def Rate.try_div (x y : Rate) : Except DecimalError Rate := do
  let p ← orOverflow (checkedMul U128SIZE x.raw WAD)
  let q ← orOverflow (checkedDiv p y.raw)
  return ⟨q⟩

/-- `Rate::from_percent`: `percent.checked_mul(PERCENT_SCALER).unwrap()`;
`none` models the panic of the `unwrap`. -/
def Rate.from_percent (p : Nat) : Option Rate :=
  (checkedMul U128SIZE p PERCENT_SCALER).map Rate.mk

/-- `Rate::from_bps`: `bps.checked_mul(BPS_SCALER).unwrap()`. -/
def Rate.from_bps (b : Nat) : Option Rate :=
  (checkedMul U128SIZE b BPS_SCALER).map Rate.mk

/-- `Rate::to_bps::<T>`: `T::try_from(self.0 / BPS_SCALER)`, where `size` is
the bound of the target integer width `T`. -/
def Rate.to_bps (x : Rate) (size : Nat) : Except DecimalError Nat :=
  if x.raw / BPS_SCALER < size then Except.ok (x.raw / BPS_SCALER)
  else Except.error DecimalError.MathOverflow

/-- `Rate::to_scaled_val::<T>`: narrowing of the raw value into width `size`. -/
def Rate.to_scaled_val (x : Rate) (size : Nat) : Except DecimalError Nat :=
  if x.raw < size then Except.ok x.raw
  else Except.error DecimalError.MathOverflow

/-- Modelled from the spec: `Rate` has no `to_percent` method under `src`
(`rate.rs` only offers `to_bps`/`to_scaled_val`); the spec's general percent
round-trip claim presumes one, mirroring `Decimal::to_percent`:
divide the raw value by the percent scaler, then narrow into width `size`. -/
def Rate.to_percent (x : Rate) (size : Nat) : Except DecimalError Nat :=
  if x.raw / PERCENT_SCALER < size then Except.ok (x.raw / PERCENT_SCALER)
  else Except.error DecimalError.MathOverflow

/-- The loop of `Rate::try_pow`: while `exp > 0`, halve `exp`, square `base`
(a fixed-point multiply), and when the halved exponent is odd fold the squared
base into `ret`. -/
def Rate.powLoop (exp : Nat) (base ret : Rate) : Except DecimalError Rate :=
  if h : exp = 0 then Except.ok ret
  else
    match base.try_mul base with
    | Except.error e => Except.error e
    | Except.ok b2 =>
      match (if exp / 2 % 2 ≠ 0 then ret.try_mul b2 else Except.ok ret) with
      | Except.error e => Except.error e
      | Except.ok r2 => Rate.powLoop (exp / 2) b2 r2
termination_by exp
decreasing_by exact Nat.div_lt_self (Nat.pos_of_ne_zero h) (by decide)

/-- `Rate::try_pow`: iterative squaring; initial accumulator is `base` for an
odd exponent and `one` for an even one. -/
def Rate.try_pow (x : Rate) (exp : Nat) : Except DecimalError Rate :=
  Rate.powLoop exp x (if exp % 2 ≠ 0 then x else Rate.one)

/-- `TryAdd for Decimal`. -/
def Decimal.try_add (x y : Decimal) : Except DecimalError Decimal :=
  (orOverflow (checkedAdd U192SIZE x.raw y.raw)).map Decimal.mk

/-- `TrySub for Decimal`. -/
def Decimal.try_sub (x y : Decimal) : Except DecimalError Decimal :=
  (orOverflow (checkedSub x.raw y.raw)).map Decimal.mk

/-- `TryMul<T> for Decimal` (integer right operand, no rescaling). -/
def Decimal.try_mul_int (x : Decimal) (n : Nat) : Except DecimalError Decimal :=
  (orOverflow (checkedMul U192SIZE x.raw n)).map Decimal.mk

/-- `TryMul<Decimal> for Decimal`:
`self.0.checked_mul(rhs.0)?.checked_div(wad)?`. -/
def Decimal.try_mul (x y : Decimal) : Except DecimalError Decimal := do
  let p ← orOverflow (checkedMul U192SIZE x.raw y.raw)
  let q ← orOverflow (checkedDiv p WAD)
  return ⟨q⟩

/-- `TryDiv<T> for Decimal` (integer right operand, no rescaling). -/
def Decimal.try_div_int (x : Decimal) (n : Nat) : Except DecimalError Decimal :=
  (orOverflow (checkedDiv x.raw n)).map Decimal.mk

/-- `TryDiv<Decimal> for Decimal`:
`self.0.checked_mul(wad)?.checked_div(rhs.0)?`. -/
def Decimal.try_div (x y : Decimal) : Except DecimalError Decimal := do
  let p ← orOverflow (checkedMul U192SIZE x.raw WAD)
  let q ← orOverflow (checkedDiv p y.raw)
  return ⟨q⟩

/-- `From<Rate> for Decimal`: re-bases the raw value into the wider width;
the narrowing `U128 → U192` of `to_scaled_val().unwrap()` always succeeds
because every `U128` value fits a `U192`. -/
def Decimal.fromRate (r : Rate) : Decimal := ⟨r.raw⟩

/-- `TryMul<Rate> for Decimal`: `self.try_mul(Decimal::from(rhs))`. -/
def Decimal.try_mul_rate (x : Decimal) (r : Rate) : Except DecimalError Decimal :=
  x.try_mul (Decimal.fromRate r)

/-- `TryDiv<Rate> for Decimal`: `self.try_div(Decimal::from(rhs))`. -/
def Decimal.try_div_rate (x : Decimal) (r : Rate) : Except DecimalError Decimal :=
  x.try_div (Decimal.fromRate r)

/-- `From<T> for Decimal` (plain-integer construction, `T: Into<U128>`):
`wad().checked_mul(val).unwrap()`; `none` models the panic of the `unwrap`. -/
def Decimal.fromInt (n : Nat) : Option Decimal :=
  (checkedMul U192SIZE WAD n).map Decimal.mk

/-- `Decimal::from_percent`: `percent.checked_mul(PERCENT_SCALER).unwrap()`. -/
def Decimal.from_percent (p : Nat) : Option Decimal :=
  (checkedMul U192SIZE p PERCENT_SCALER).map Decimal.mk

/-- `Decimal::from_bps`: `bps.checked_mul(BPS_SCALER).unwrap()`. -/
def Decimal.from_bps (b : Nat) : Option Decimal :=
  (checkedMul U192SIZE b BPS_SCALER).map Decimal.mk

/-- `Decimal::to_percent::<T>`: `T::try_from(self.0 / PERCENT_SCALER)`,
where `size` is the bound of the target width `T`. -/
def Decimal.to_percent (x : Decimal) (size : Nat) : Except DecimalError Nat :=
  if x.raw / PERCENT_SCALER < size then Except.ok (x.raw / PERCENT_SCALER)
  else Except.error DecimalError.MathOverflow

/-- `Decimal::to_bps::<T>`: `T::try_from(self.0 / BPS_SCALER)`. -/
def Decimal.to_bps (x : Decimal) (size : Nat) : Except DecimalError Nat :=
  if x.raw / BPS_SCALER < size then Except.ok (x.raw / BPS_SCALER)
  else Except.error DecimalError.MathOverflow

/-- `Decimal::to_scaled_val::<T>`: narrowing of the raw value. -/
def Decimal.to_scaled_val (x : Decimal) (size : Nat) : Except DecimalError Nat :=
  if x.raw < size then Except.ok x.raw
  else Except.error DecimalError.MathOverflow

/-- `Decimal::try_round::<T>`:
`half_wad().checked_add(self.0)?.checked_div(wad())?`, then narrow. -/
def Decimal.try_round (x : Decimal) (size : Nat) : Except DecimalError Nat := do
  let s ← orOverflow (checkedAdd U192SIZE HALF_WAD x.raw)
  let q ← orOverflow (checkedDiv s WAD)
  if q < size then return q else Except.error DecimalError.MathOverflow

/-- `Decimal::try_ceil::<T>`:
`wad().checked_sub(1)?.checked_add(self.0)?.checked_div(wad())?`, then narrow. -/
def Decimal.try_ceil (x : Decimal) (size : Nat) : Except DecimalError Nat := do
  let w1 ← orOverflow (checkedSub WAD 1)
  let s ← orOverflow (checkedAdd U192SIZE w1 x.raw)
  let q ← orOverflow (checkedDiv s WAD)
  if q < size then return q else Except.error DecimalError.MathOverflow

/-- `Decimal::try_floor::<T>`: `self.0.checked_div(wad())?`, then narrow. -/
def Decimal.try_floor (x : Decimal) (size : Nat) : Except DecimalError Nat := do
  let q ← orOverflow (checkedDiv x.raw WAD)
  if q < size then return q else Except.error DecimalError.MathOverflow

/-- `Ratio` (`ratio.rs`): a plain integer fraction of two `u64` fields. -/
structure Ratio : Type where
  numerator : Nat
  denominator : Nat
deriving DecidableEq

/-- `Ratio::mul`: `(numerator as u128).checked_mul(amount as u128).unwrap()
.checked_div(denominator as u128).unwrap() as u64`.  Each `unwrap` panic is
`none`; the final `as u64` cast keeps the low 64 bits of the quotient. -/
def Ratio.mul (r : Ratio) (amount : Nat) : Option Nat :=
  match checkedMul U128SIZE r.numerator amount with
  | none => none
  | some p =>
    match checkedDiv p r.denominator with
    | none => none
    | some q => some (q % U64SIZE)

/-- Most-significant-first decimal digits of `n`, as rendered by the
`uint`-crate `to_string` (standard decimal, no leading zeros, `0` for zero). -/
def digitsOf (n : Nat) : List Nat :=
  if h : n < 10 then [n]
  else digitsOf (n / 10) ++ [n % 10]
termination_by n
decreasing_by
  exact Nat.div_lt_self (Nat.lt_of_lt_of_le (by decide) (Nat.le_of_not_lt h)) (by decide)

/-- The decimal digit string of `n`. -/
def natDigitString (n : Nat) : String :=
  String.mk ((digitsOf n).map Nat.digitChar)

/-- The shared `fmt::Display` body of `Decimal` and `Rate`: pad the digit
string of the raw value to `SCALE` digits and prefix `0.` when it is short,
otherwise insert a point `SCALE` digits from the right end. -/
def fmtWad (s : String) : String :=
  if s.length ≤ SCALE then
    "0." ++ String.mk (List.replicate (SCALE - s.length) '0') ++ s
  else
    (s.take (s.length - SCALE)) ++ "." ++ (s.drop (s.length - SCALE))

/-- `fmt::Display for Decimal`. -/
def Decimal.display (x : Decimal) : String :=
  fmtWad (natDigitString x.raw)

/-- `fmt::Display for Rate`. -/
def Rate.display (x : Rate) : String :=
  fmtWad (natDigitString x.raw)

/-- The display format exactly as the spec describes it: when the digit
string has length at most 18, the string `0.` followed by the digit string
left-padded with zeros to exactly 18 digits; otherwise the digit string with
a decimal point inserted 18 digits from the right end. -/
def displayDescribed (v : Nat) : String :=
  let s := natDigitString v
  if s.length ≤ 18 then
    "0." ++ String.mk (List.leftpad 18 '0' s.data)
  else
    (s.take (s.length - 18)) ++ "." ++ (s.drop (s.length - 18))

theorem rate_try_mul_eq (x y : Rate) :
    x.try_mul y =
      if x.raw * y.raw < U128SIZE then Except.ok ⟨x.raw * y.raw / WAD⟩
      else Except.error DecimalError.MathOverflow := by
  by_cases h : x.raw * y.raw < U128SIZE <;>
    simp [Rate.try_mul, orOverflow, checkedMul, checkedDiv, Bind.bind, Except.bind,
      Pure.pure, Except.pure, h, WAD]

theorem rate_try_div_eq (x y : Rate) :
    x.try_div y =
      if x.raw * WAD < U128SIZE then
        (if y.raw = 0 then Except.error DecimalError.MathOverflow
         else Except.ok ⟨x.raw * WAD / y.raw⟩)
      else Except.error DecimalError.MathOverflow := by
  by_cases h : x.raw * WAD < U128SIZE <;>
    by_cases hy : y.raw = 0 <;>
      simp [Rate.try_div, orOverflow, checkedMul, checkedDiv, Bind.bind, Except.bind,
        Pure.pure, Except.pure, h, hy]

theorem decimal_try_mul_eq (x y : Decimal) :
    x.try_mul y =
      if x.raw * y.raw < U192SIZE then Except.ok ⟨x.raw * y.raw / WAD⟩
      else Except.error DecimalError.MathOverflow := by
  by_cases h : x.raw * y.raw < U192SIZE <;>
    simp [Decimal.try_mul, orOverflow, checkedMul, checkedDiv, Bind.bind, Except.bind,
      Pure.pure, Except.pure, h, WAD]

theorem decimal_try_div_eq (x y : Decimal) :
    x.try_div y =
      if x.raw * WAD < U192SIZE then
        (if y.raw = 0 then Except.error DecimalError.MathOverflow
         else Except.ok ⟨x.raw * WAD / y.raw⟩)
      else Except.error DecimalError.MathOverflow := by
  by_cases h : x.raw * WAD < U192SIZE <;>
    by_cases hy : y.raw = 0 <;>
      simp [Decimal.try_div, orOverflow, checkedMul, checkedDiv, Bind.bind, Except.bind,
        Pure.pure, Except.pure, h, hy]

theorem wad_mul_lt_u192 (n : Nat) (hn : n < U128SIZE) : WAD * n < U192SIZE := by
  calc WAD * n < WAD * U128SIZE := by
        exact (Nat.mul_lt_mul_left (by decide : 0 < WAD)).mpr hn
    _ ≤ U192SIZE := by decide

theorem one_mul_ok (y r : Rate) (h : Rate.one.try_mul y = Except.ok r) : r = y := by
  rw [rate_try_mul_eq] at h
  split at h
  · cases h
    cases y
    simp [Rate.one, Nat.mul_div_cancel_left _ (by decide : 0 < WAD)]
  · cases h

theorem mul_one_ok (x r : Rate) (h : x.try_mul Rate.one = Except.ok r) : r = x := by
  rw [rate_try_mul_eq] at h
  split at h
  · cases h
    cases x
    simp [Rate.one, Nat.mul_div_cancel _ (by decide : 0 < WAD)]
  · cases h

theorem try_pow_zero (x : Rate) : x.try_pow 0 = Except.ok Rate.one := by
  rw [Rate.try_pow]
  simp [Rate.powLoop]

theorem powLoop_one_eq (e : Nat) :
    Rate.powLoop e Rate.one Rate.one = Except.ok Rate.one := by
  induction e using Nat.strong_induction_on with
  | _ e ih =>
    rw [Rate.powLoop]
    by_cases h : e = 0
    · simp [h]
    · have hmul : Rate.one.try_mul Rate.one = Except.ok Rate.one := by decide
      simp only [h, dite_false, hmul, ite_self]
      exact ih (e / 2) (Nat.div_lt_self (Nat.pos_of_ne_zero h) (by decide))

theorem try_pow_one_eq (x : Rate) :
    x.try_pow 1 =
      (match x.try_mul x with
        | Except.error e => Except.error e
        | Except.ok _ => Except.ok x) := by
  rcases h : x.try_mul x with e | b <;>
    · rw [Rate.try_pow, Rate.powLoop]
      simp [h, Rate.powLoop]

theorem try_pow_two_eq (x : Rate) :
    x.try_pow 2 =
      (match x.try_mul x with
        | Except.error e => Except.error e
        | Except.ok b2 =>
          match Rate.one.try_mul b2 with
          | Except.error e => Except.error e
          | Except.ok r2 =>
            match b2.try_mul b2 with
            | Except.error e => Except.error e
            | Except.ok _ => Except.ok r2) := by
  rcases h1 : x.try_mul x with e | b2
  · rw [Rate.try_pow, Rate.powLoop]
    simp [h1]
  · rcases h2 : Rate.one.try_mul b2 with e | r2
    · rw [Rate.try_pow, Rate.powLoop]
      simp [h1, h2]
    · rcases h3 : b2.try_mul b2 with e | b4 <;>
        · rw [Rate.try_pow, Rate.powLoop]
          simp [h1, h2, Rate.powLoop, h3]

theorem try_pow_three_eq (x : Rate) :
    x.try_pow 3 =
      (match x.try_mul x with
        | Except.error e => Except.error e
        | Except.ok b2 =>
          match x.try_mul b2 with
          | Except.error e => Except.error e
          | Except.ok r2 =>
            match b2.try_mul b2 with
            | Except.error e => Except.error e
            | Except.ok _ => Except.ok r2) := by
  rcases h1 : x.try_mul x with e | b2
  · rw [Rate.try_pow, Rate.powLoop]
    simp [h1]
  · rcases h2 : x.try_mul b2 with e | r2
    · rw [Rate.try_pow, Rate.powLoop]
      simp [h1, h2]
    · rcases h3 : b2.try_mul b2 with e | b4 <;>
        · rw [Rate.try_pow, Rate.powLoop]
          simp [h1, h2, Rate.powLoop, h3]

/-- C1 (counterexample): on numerator `u64::MAX`, denominator 1 and amount 2 —
where the true quotient exceeds `u64::MAX` — `Ratio::mul` does not abort: it
returns the silently truncated value `2^64 - 2`. -/
theorem ratio_mul_overflow_claim_false :
    Ratio.mul ⟨18446744073709551615, 1⟩ 2 = some 18446744073709551614 := by decide

/-- C1 (amended): for every numerator and amount below `2^64` and every
nonzero denominator whose floor quotient reaches `2^64`, `Ratio::mul` does
not abort: it returns the quotient truncated to its low 64 bits. -/
theorem ratio_mul_overflow_truncates (n a d : Nat)
    (hn : n < U64SIZE) (ha : a < U64SIZE) (hd : d ≠ 0)
    (hbig : U64SIZE ≤ n * a / d) :
    Ratio.mul ⟨n, d⟩ a = some (n * a / d % U64SIZE) := by
  have hmul : n * a < U128SIZE := by
    calc n * a < U64SIZE * U64SIZE := by
          exact Nat.mul_lt_mul_of_lt_of_lt hn ha
      _ = U128SIZE := by decide
  simp [Ratio.mul, checkedMul, checkedDiv, hmul, hd]

theorem ratio_mul_overflow_truncates_witness :
    Ratio.mul ⟨18446744073709551615, 1⟩ 2 =
      some (18446744073709551615 * 2 / 1 % U64SIZE) :=
  ratio_mul_overflow_truncates 18446744073709551615 2 1
    (by decide) (by decide) (by decide) (by decide)

/-- C10: for `u64`-ranged fields, `Ratio::mul` panics exactly when the
denominator is zero — the 128-bit intermediate product of two 64-bit factors
cannot overflow — and for a nonzero denominator it returns the low 64 bits of
the 128-bit floor quotient. -/
theorem ratio_mul_panics_iff_zero_denominator (n a d : Nat)
    (hn : n < U64SIZE) (ha : a < U64SIZE) :
    (( Ratio.mul ⟨n, d⟩ a) = none ↔ d = 0) ∧
      (d ≠ 0 → Ratio.mul ⟨n, d⟩ a = some (n * a / d % U64SIZE)) := by
  have hmul : n * a < U128SIZE := by
    calc n * a < U64SIZE * U64SIZE := by
          exact Nat.mul_lt_mul_of_lt_of_lt hn ha
      _ = U128SIZE := by decide
  constructor
  · constructor
    · intro h
      by_contra hd
      simp [Ratio.mul, checkedMul, checkedDiv, hmul, hd] at h
    · intro hd
      simp [Ratio.mul, checkedMul, checkedDiv, hmul, hd]
  · intro hd
    simp [Ratio.mul, checkedMul, checkedDiv, hmul, hd]

theorem ratio_mul_panics_iff_zero_denominator_witness :
    (( Ratio.mul ⟨1, 3⟩ 9) = none ↔ (3 : Nat) = 0) ∧
      ((3 : Nat) ≠ 0 → Ratio.mul ⟨1, 3⟩ 9 = some (1 * 9 / 3 % U64SIZE)) :=
  ratio_mul_panics_iff_zero_denominator 1 9 3 (by decide) (by decide)

/-- C3 (counterexample, refuting the claimed existential): no accepted input
of plain-integer construction (any `n < 2^128`) makes `Decimal::from` panic:
`10^18 * n` always fits the 192-bit width. -/
theorem decimal_from_overflow_claim_false :
    ¬ ∃ n : Nat, n < U128SIZE ∧ Decimal.fromInt n = none := by
  rintro ⟨n, hn, hnone⟩
  simp [Decimal.fromInt, checkedMul, wad_mul_lt_u192 n hn] at hnone

/-- C3 (amended): `Decimal::from(n)` multiplies by the whole-unit scaler but
never overflows the 192-bit width on any accepted input: for every `n < 2^128`
it returns the value with raw part `10^18 * n`. -/
theorem decimal_from_total (n : Nat) (hn : n < U128SIZE) :
    Decimal.fromInt n = some ⟨WAD * n⟩ := by
  simp [Decimal.fromInt, checkedMul, wad_mul_lt_u192 n hn]

theorem decimal_from_total_witness :
    Decimal.fromInt (2 ^ 128 - 1) = some ⟨WAD * (2 ^ 128 - 1)⟩ :=
  decimal_from_total (2 ^ 128 - 1) (by decide)

/-- C4: every checked divide by zero — integer-zero divisor or zero
fixed-point divisor, on `Decimal` and on `Rate` (including the
`Rate`-divisor path of `Decimal`) — returns the `MathOverflow` error. -/
theorem try_div_zero_returns_math_overflow :
    (∀ x : Decimal, x.try_div_int 0 = Except.error DecimalError.MathOverflow) ∧
      (∀ x : Decimal, x.try_div Decimal.zero = Except.error DecimalError.MathOverflow) ∧
      (∀ x : Decimal, x.try_div_rate Rate.zero = Except.error DecimalError.MathOverflow) ∧
      (∀ x : Rate, x.try_div_int 0 = Except.error DecimalError.MathOverflow) ∧
      (∀ x : Rate, x.try_div Rate.zero = Except.error DecimalError.MathOverflow) := by
  refine ⟨?_, ?_, ?_, ?_, ?_⟩
  · intro x
    simp [Decimal.try_div_int, orOverflow, checkedDiv, Except.map]
  · intro x
    rw [decimal_try_div_eq]
    simp [Decimal.zero]
  · intro x
    rw [Decimal.try_div_rate, decimal_try_div_eq]
    simp [Decimal.fromRate, Rate.zero]
  · intro x
    simp [Rate.try_div_int, orOverflow, checkedDiv, Except.map]
  · intro x
    rw [rate_try_div_eq]
    simp [Rate.zero]

/-- C6: rounding at the half-unit boundary `raw = 5*10^17` yields 1 / 1 / 0
under `try_round` / `try_ceil` / `try_floor`, and at `raw = 10^18 - 1` also
1 / 1 / 0 (narrowed into `u64`). -/
theorem round_ceil_floor_boundary_values :
    Decimal.try_round ⟨500000000000000000⟩ U64SIZE = Except.ok 1 ∧
      Decimal.try_ceil ⟨500000000000000000⟩ U64SIZE = Except.ok 1 ∧
      Decimal.try_floor ⟨500000000000000000⟩ U64SIZE = Except.ok 0 ∧
      Decimal.try_round ⟨999999999999999999⟩ U64SIZE = Except.ok 1 ∧
      Decimal.try_ceil ⟨999999999999999999⟩ U64SIZE = Except.ok 1 ∧
      Decimal.try_floor ⟨999999999999999999⟩ U64SIZE = Except.ok 0 := by
  refine ⟨?_, ?_, ?_, ?_, ?_, ?_⟩ <;> decide

/-- C2 (counterexample): the claimed identity
`try_pow(n) = x * try_pow(n-1)` (whenever the right side is defined) fails
twice on the code.  At raw `2*10^19` and `n = 1` the right side is defined
(`x * try_pow(0) = x * one = x`) yet `try_pow(1)` errors, because the loop
also squares the running base.  At raw `172513999897333901` and `n = 4` both
sides are defined but differ by one truncation unit: `try_pow(4)` computes
`(x^2)^2` while the sequential product computes `x*(x*(x*x))`. -/
theorem try_pow_claim_counterexample :
    (Rate.mk 20000000000000000000).try_pow 0 = Except.ok Rate.one ∧
      (Rate.mk 20000000000000000000).try_mul Rate.one =
        Except.ok (Rate.mk 20000000000000000000) ∧
      (Rate.mk 20000000000000000000).try_pow 1 =
        Except.error DecimalError.MathOverflow ∧
      (Rate.mk 172513999897333901).try_pow 3 = Except.ok (Rate.mk 5134202979766381) ∧
      (Rate.mk 172513999897333901).try_mul (Rate.mk 5134202979766381) =
        Except.ok (Rate.mk 885721892324308) ∧
      (Rate.mk 172513999897333901).try_pow 4 = Except.ok (Rate.mk 885721892324309) := by
  refine ⟨?_, by decide, ?_, ?_, by decide, ?_⟩ <;>
    simp [Rate.try_pow, Rate.powLoop, Rate.try_mul, orOverflow, checkedMul, checkedDiv,
      U128SIZE, WAD, Bind.bind, Except.bind, Pure.pure, Except.pure, Rate.one]

/-- C2 (amended): for exponents 1, 2 and 3, whenever `x.try_pow(n-1)`, the
fixed-point multiply of `x` with that result, and `x.try_pow(n)` all succeed,
`x.try_pow(n)` returns exactly that product; for larger exponents the
squaring order of `try_pow` can differ from the sequential product by
truncation, and `try_pow(n)` can fail even when the product is defined. -/
theorem try_pow_sequential_small (x : Rate) (n : Nat)
    (hn : n = 1 ∨ n = 2 ∨ n = 3) (p r v : Rate)
    (hp : x.try_pow (n - 1) = Except.ok p)
    (hr : x.try_mul p = Except.ok r)
    (hv : x.try_pow n = Except.ok v) :
    v = r := by
  rcases hn with rfl | rfl | rfl
  · rw [try_pow_zero] at hp
    cases hp
    have hrx : r = x := mul_one_ok x r hr
    rw [try_pow_one_eq] at hv
    rcases h1 : x.try_mul x with e | b
    · simp only [h1] at hv
      cases hv
    · simp only [h1] at hv
      cases hv
      exact hrx.symm
  · rw [try_pow_one_eq] at hp
    rcases h1 : x.try_mul x with e | b2
    · simp only [h1] at hp
      cases hp
    · simp only [h1] at hp
      cases hp
      rw [hr] at h1
      cases h1
      rw [try_pow_two_eq] at hv
      simp only [hr] at hv
      rcases h2 : Rate.one.try_mul r with e | r2
      · simp only [h2] at hv
        cases hv
      · simp only [h2] at hv
        rcases h3 : r.try_mul r with e | b4
        · simp only [h3] at hv
          cases hv
        · simp only [h3] at hv
          cases hv
          exact one_mul_ok r _ h2
  · rw [try_pow_two_eq] at hp
    rcases h1 : x.try_mul x with e | b2
    · simp only [h1] at hp
      cases hp
    · simp only [h1] at hp
      rcases h2 : Rate.one.try_mul b2 with e | r2
      · simp only [h2] at hp
        cases hp
      · simp only [h2] at hp
        rcases h3 : b2.try_mul b2 with e | b4
        · simp only [h3] at hp
          cases hp
        · simp only [h3] at hp
          cases hp
          have hpb := one_mul_ok b2 _ h2
          subst hpb
          rw [try_pow_three_eq] at hv
          simp only [h1, hr, h3] at hv
          cases hv
          rfl

theorem try_pow_sequential_small_witness :
    (Rate.mk 1500000000000000000).try_pow 0 = Except.ok Rate.one ∧
      (Rate.mk 1500000000000000000).try_mul Rate.one =
        Except.ok (Rate.mk 1500000000000000000) ∧
      (Rate.mk 1500000000000000000).try_pow 1 =
        Except.ok (Rate.mk 1500000000000000000) ∧
      Rate.mk 1500000000000000000 = Rate.mk 1500000000000000000 := by
  have h0 : (Rate.mk 1500000000000000000).try_pow 0 = Except.ok Rate.one := by
    simp [Rate.try_pow, Rate.powLoop]
  have h1 : (Rate.mk 1500000000000000000).try_mul Rate.one =
      Except.ok (Rate.mk 1500000000000000000) := by decide
  have h2 : (Rate.mk 1500000000000000000).try_pow 1 =
      Except.ok (Rate.mk 1500000000000000000) := by
    simp [Rate.try_pow, Rate.powLoop, Rate.try_mul, orOverflow, checkedMul, checkedDiv,
      U128SIZE, WAD, Bind.bind, Except.bind, Pure.pure, Except.pure]
  exact ⟨h0, h1, h2,
    try_pow_sequential_small _ 1 (Or.inl rfl) Rate.one _ _ h0 h1 h2⟩

/-- C5 (counterexample): "one is an identity for every representable x"
fails: the representable maximal raw value `2^192 - 1` overflows the
rescaling multiply, so multiplying or dividing by one errors instead of
returning `Ok(x)`. -/
theorem one_identity_claim_false :
    Decimal.try_mul ⟨2 ^ 192 - 1⟩ Decimal.one = Except.error DecimalError.MathOverflow ∧
      Decimal.try_div ⟨2 ^ 192 - 1⟩ Decimal.one = Except.error DecimalError.MathOverflow := by
  constructor <;> decide

/-- C5 (amended): one is a multiplicative identity on the overflow-free
range: for raw values with `raw * 10^18` inside the integer width,
`x.try_mul(one) = Ok(x)` and `x.try_div(one) = Ok(x)` (both types);
`Decimal::from(Rate::one()) == Decimal::one()`; and multiplying such a
`Decimal` by `Rate::from_percent(100)` is the identity. -/
theorem one_is_multiplicative_identity :
    (∀ x : Decimal, x.raw * WAD < U192SIZE →
      x.try_mul Decimal.one = Except.ok x ∧ x.try_div Decimal.one = Except.ok x) ∧
      (∀ x : Rate, x.raw * WAD < U128SIZE →
        x.try_mul Rate.one = Except.ok x ∧ x.try_div Rate.one = Except.ok x) ∧
      Decimal.fromRate Rate.one = Decimal.one ∧
      (∀ x : Decimal, x.raw * WAD < U192SIZE → ∀ r : Rate,
        Rate.from_percent 100 = some r → x.try_mul_rate r = Except.ok x) := by
  have hW : WAD ≠ 0 := by decide
  have hWpos : 0 < WAD := by decide
  have hdec : ∀ x : Decimal, x.raw * WAD < U192SIZE →
      x.try_mul Decimal.one = Except.ok x ∧ x.try_div Decimal.one = Except.ok x := by
    intro x hx
    constructor
    · rw [decimal_try_mul_eq]
      cases x
      simp only [Decimal.one] at *
      simp [hx, Nat.mul_div_cancel _ hWpos]
    · rw [decimal_try_div_eq]
      cases x
      simp only [Decimal.one] at *
      simp [hx, hW, Nat.mul_div_cancel _ hWpos]
  refine ⟨hdec, ?_, by decide, ?_⟩
  · intro x hx
    constructor
    · rw [rate_try_mul_eq]
      cases x
      simp only [Rate.one] at *
      simp [hx, Nat.mul_div_cancel _ hWpos]
    · rw [rate_try_div_eq]
      cases x
      simp only [Rate.one] at *
      simp [hx, hW, Nat.mul_div_cancel _ hWpos]
  · intro x hx r href
    have hone : Rate.from_percent 100 = some Rate.one := by decide
    rw [hone] at href
    cases href
    have hfr : Decimal.fromRate Rate.one = Decimal.one := by decide
    rw [Decimal.try_mul_rate, hfr]
    exact (hdec x hx).1

theorem one_is_multiplicative_identity_witness :
    Decimal.one.try_mul Decimal.one = Except.ok Decimal.one ∧
      Decimal.one.try_div Decimal.one = Except.ok Decimal.one :=
  one_is_multiplicative_identity.1 Decimal.one (by decide)

/-- C9: `try_pow(0)` is `Ok(one)` for every base, and `one.try_pow(e)` is
`Ok(one)` for every exponent up to and including `u64::MAX`, with no
overflow error (the halving loop always terminates). -/
theorem try_pow_zero_exp_and_one_base :
    (∀ x : Rate, x.try_pow 0 = Except.ok Rate.one) ∧
      (∀ e : Nat, e ≤ 18446744073709551615 →
        Rate.one.try_pow e = Except.ok Rate.one) := by
  constructor
  · exact try_pow_zero
  · intro e he
    rw [Rate.try_pow]
    by_cases h : e % 2 ≠ 0 <;> simp only [h, if_true, if_false, ite_self] <;>
      exact powLoop_one_eq e

theorem try_pow_zero_exp_and_one_base_witness :
    Rate.one.try_pow 18446744073709551615 = Except.ok Rate.one :=
  try_pow_zero_exp_and_one_base.2 18446744073709551615 (by decide)

/-- C8: percent and basis-point conversions round-trip over the whole `u64`
input range, for `Decimal` (both units) and for `Rate` (basis points from
the source; percent through the spec-modelled `Rate.to_percent`). -/
theorem percent_bps_round_trip (p : Nat) (hp : p < U64SIZE) :
    (Decimal.from_percent p).map (fun d => d.to_percent U64SIZE) =
        some (Except.ok p) ∧
      (Decimal.from_bps p).map (fun d => d.to_bps U64SIZE) = some (Except.ok p) ∧
      (Rate.from_bps p).map (fun r => r.to_bps U64SIZE) = some (Except.ok p) ∧
      (Rate.from_percent p).map (fun r => r.to_percent U64SIZE) = some (Except.ok p) := by
  have h192p : p * PERCENT_SCALER < U192SIZE := by
    calc p * PERCENT_SCALER < U64SIZE * PERCENT_SCALER := by
          exact Nat.mul_lt_mul_of_lt_of_le hp (le_refl _) (by decide)
      _ < U192SIZE := by decide
  have h192b : p * BPS_SCALER < U192SIZE := by
    calc p * BPS_SCALER < U64SIZE * BPS_SCALER := by
          exact Nat.mul_lt_mul_of_lt_of_le hp (le_refl _) (by decide)
      _ < U192SIZE := by decide
  have h128p : p * PERCENT_SCALER < U128SIZE := by
    calc p * PERCENT_SCALER < U64SIZE * PERCENT_SCALER := by
          exact Nat.mul_lt_mul_of_lt_of_le hp (le_refl _) (by decide)
      _ < U128SIZE := by decide
  have h128b : p * BPS_SCALER < U128SIZE := by
    calc p * BPS_SCALER < U64SIZE * BPS_SCALER := by
          exact Nat.mul_lt_mul_of_lt_of_le hp (le_refl _) (by decide)
      _ < U128SIZE := by decide
  refine ⟨?_, ?_, ?_, ?_⟩
  · simp [Decimal.from_percent, checkedMul, h192p, Decimal.to_percent,
      Nat.mul_div_cancel _ (by decide : 0 < PERCENT_SCALER), hp]
  · simp [Decimal.from_bps, checkedMul, h192b, Decimal.to_bps,
      Nat.mul_div_cancel _ (by decide : 0 < BPS_SCALER), hp]
  · simp [Rate.from_bps, checkedMul, h128b, Rate.to_bps,
      Nat.mul_div_cancel _ (by decide : 0 < BPS_SCALER), hp]
  · simp [Rate.from_percent, checkedMul, h128p, Rate.to_percent,
      Nat.mul_div_cancel _ (by decide : 0 < PERCENT_SCALER), hp]

theorem percent_bps_round_trip_witness :
    (Decimal.from_percent 42).map (fun d => d.to_percent U64SIZE) =
        some (Except.ok 42) ∧
      (Decimal.from_bps 42).map (fun d => d.to_bps U64SIZE) = some (Except.ok 42) ∧
      (Rate.from_bps 42).map (fun r => r.to_bps U64SIZE) = some (Except.ok 42) ∧
      (Rate.from_percent 42).map (fun r => r.to_percent U64SIZE) = some (Except.ok 42) :=
  percent_bps_round_trip 42 (by decide)

theorem string_mk_append (a b : List Char) :
    String.mk a ++ String.mk b = String.mk (a ++ b) := rfl

theorem zero_dot_lit : "0." = String.mk ['0', '.'] := rfl

theorem display_eq_described (v : Nat) : Decimal.display ⟨v⟩ = displayDescribed v := by
  unfold Decimal.display displayDescribed fmtWad
  rcases h : natDigitString v with ⟨l⟩
  simp only [SCALE, List.leftpad]
  split
  · rw [zero_dot_lit, string_mk_append, string_mk_append, string_mk_append]
    simp [List.append_assoc]
  · rfl

/-- C7: the rendered string of a `Decimal` or `Rate` is exactly the
spec-described fixed-point format (pad short digit strings to 18 places
behind `0.`, otherwise insert the point 18 digits from the right), and in
particular raw 1, raw `10^18` and raw 0 render as the three pinned strings. -/
theorem display_format :
    (∀ v : Nat, Decimal.display ⟨v⟩ = displayDescribed v) ∧
      (∀ v : Nat, Rate.display ⟨v⟩ = displayDescribed v) ∧
      Decimal.display ⟨1⟩ = "0.000000000000000001" ∧
      Decimal.display ⟨1000000000000000000⟩ = "1.000000000000000000" ∧
      Decimal.display ⟨0⟩ = "0.000000000000000000" ∧
      Rate.display ⟨1⟩ = "0.000000000000000001" ∧
      Rate.display ⟨1000000000000000000⟩ = "1.000000000000000000" ∧
      Rate.display ⟨0⟩ = "0.000000000000000000" := by
  have hrd : ∀ v : Nat, Rate.display ⟨v⟩ = Decimal.display ⟨v⟩ := fun v => rfl
  have h1 : Decimal.display ⟨1⟩ = "0.000000000000000001" := by
    simp [Decimal.display, natDigitString, digitsOf, fmtWad, SCALE]
    decide
  have h2 : Decimal.display ⟨1000000000000000000⟩ = "1.000000000000000000" := by
    simp [Decimal.display, natDigitString, digitsOf, fmtWad, SCALE]
    decide
  have h3 : Decimal.display ⟨0⟩ = "0.000000000000000000" := by
    simp [Decimal.display, natDigitString, digitsOf, fmtWad, SCALE]
    decide
  exact ⟨display_eq_described, fun v => (hrd v).trans (display_eq_described v),
    h1, h2, h3, (hrd 1).trans h1, (hrd 1000000000000000000).trans h2, (hrd 0).trans h3⟩

end DecimalWad
